import Mathlib

/-!
# Verification of `app/javascript/utils/request.ts`

A shallow embedding of the request executor: a single `request` function that
prepares a body and headers from a request descriptor, then runs an attempt
loop racing the HTTP transport against a timeout and an external cancellation
signal, retrying transient failures for GET with exponential backoff.

The transport and the two cancellation sources are modelled as an environment:
for each attempt index the environment says whether the external signal is in
the aborted state at the pre-fetch check, what the transport settles with, and
whether the external signal is in the aborted state at the post-settlement
check inside the catch handler.  The execution returns the classified outcome
together with an observable trace: the net change of the process-wide
`__activeRequests` counter, the number of transport calls issued, the backoff
delays slept, the timeout values the per-attempt timers were armed with, and
the number of loop iterations entered.
-/

namespace Request

/-- HTTP method of a request descriptor (`settings.method`). -/
inductive Method where
  | GET
  | POST
  | PUT
  | PATCH
  | DELETE
deriving DecidableEq, Repr

/-- The `accept` discriminator of a request descriptor (`settings.accept`). -/
inductive Accept where
  | json
  | html
  | csv
deriving DecidableEq, Repr

/-- The `settings.data` field of a non-GET descriptor: absent (`undefined`),
a `FormData` instance (identified by a tag), or a plain record.  Records are
modelled as flat string-valued key/value lists, which is all the claims need
of `JSON.stringify`. -/
inductive DataV where
  | undef
  | form (tag : Nat)
  | record (fields : List (String × String))
deriving DecidableEq, Repr

/-- The `RequestSettings` descriptor.  In the TypeScript union type a GET
descriptor has no `data` field (reading it yields `undefined`); here `data`
is always present but the code only consults it for non-GET methods. -/
structure RequestSettings where
  accept : Accept
  url : String
  hasAbortSignal : Bool
  timeoutMs : Option Nat
  method : Method
  data : DataV
deriving DecidableEq, Repr

/-- The value computed for the `body` argument of `fetch`:
`null` for GET, `undefined` when `JSON.stringify` was applied to an absent
payload, a `FormData` passed through, or a JSON text string. -/
inductive Body where
  | null
  | undef
  | form (tag : Nat)
  | json (s : String)
deriving DecidableEq, Repr

/-- `JSON.stringify` restricted to the flat string-valued records of `DataV`. -/
def jsonStringifyRecord (fields : List (String × String)) : String :=
  "\x7b" ++ String.intercalate ","
    (fields.map (fun f => "\"" ++ f.1 ++ "\":\"" ++ f.2 ++ "\"")) ++ "\x7d"

/-- The body computation at the top of `request`:
`settings.method === "GET" ? null : settings.data instanceof FormData
? settings.data : JSON.stringify(settings.data)`.
`JSON.stringify(undefined)` evaluates to `undefined`, not to a string. -/
def computeBody (s : RequestSettings) : Body :=
  if s.method = Method.GET then Body.null
  else
    match s.data with
    | DataV.form tag => Body.form tag
    | DataV.undef => Body.undef
    | DataV.record fields => Body.json (jsonStringifyRecord fields)

/-- The fixed `acceptType` mapping. -/
def acceptType : Accept → String
  | Accept.json => "application/json, text/html"
  | Accept.html => "text/html"
  | Accept.csv => "text/csv"

/-- JavaScript truthiness of a body value: `null` and `undefined` are falsy,
objects are truthy, a string is truthy iff nonempty. -/
def Body.truthy : Body → Bool
  | Body.null => false
  | Body.undef => false
  | Body.form _ => true
  | Body.json s => decide (s ≠ "")

/-- `data instanceof FormData`. -/
def Body.isFormData : Body → Bool
  | Body.form _ => true
  | _ => false

/-- The headers prepared once per call: `Accept` always, and
`Content-Type: application/json` exactly when
`data && !(data instanceof FormData)`.  `defaults.headers` is empty. -/
def headersOf (s : RequestSettings) : List (String × String) :=
  if (computeBody s).truthy && !(computeBody s).isFormData then
    [("Accept", acceptType s.accept), ("Content-Type", "application/json")]
  else
    [("Accept", acceptType s.accept)]

/-- `maxAttempts = settings.method === "GET" ? 3 : 1`. -/
def maxAttemptsOf (s : RequestSettings) : Nat :=
  if s.method = Method.GET then 3 else 1

/-- `baseTimeout = typeof settings.timeoutMs === "number" ? settings.timeoutMs
: 60000`. -/
def baseTimeoutOf (s : RequestSettings) : Nat :=
  match s.timeoutMs with
  | some n => n
  | none => 60000

/-- A response object as settled by the transport: its status plus an opaque
payload tag, so that returning the response "as-is" is observable. -/
structure ResponseV where
  status : Nat
  payload : Nat
deriving DecidableEq, Repr

/-- How one transport call settles: a resolved response, a `DOMException`
named `AbortError` (the internal controller fired, from either cancellation
source), a `TypeError` (network-level failure), or some other exception. -/
inductive FetchOutcome where
  | resolved (r : ResponseV)
  | abortExc
  | typeError
  | otherError (tag : Nat)
deriving DecidableEq, Repr

/-- The environment of one attempt: the external signal's `aborted` state at
the pre-fetch check, the transport settlement, and the external signal's
`aborted` state at the post-settlement check in the catch handler.  The two
Boolean fields are only consulted when the descriptor carries a signal. -/
structure AttemptEnv where
  preAborted : Bool
  outcome : FetchOutcome
  postAborted : Bool
deriving DecidableEq, Repr

/-- The classified outcome of a call to `request`. -/
inductive RequestResult where
  | success (r : ResponseV)
  | abortError
  | timeoutError
  | responseError (msg : String)
deriving DecidableEq, Repr

/-- Observable trace of one call: its outcome, the net change applied to
`globalThis.__activeRequests`, the number of `fetch` calls issued, the
backoff delays slept (in order, in ms), the timeout values the per-attempt
timers were armed with (in order, in ms), and the number of loop iterations
entered. -/
structure ExecTrace where
  result : RequestResult
  counterDelta : Int
  fetchCalls : Nat
  backoffs : List Nat
  timers : List Nat
  starts : Nat
deriving DecidableEq, Repr

/-- The running accumulator of the attempt loop. -/
structure Acc where
  counterDelta : Int
  fetchCalls : Nat
  backoffs : List Nat
  timers : List Nat
  starts : Nat
deriving DecidableEq, Repr

/-- Accumulator state right after `++globalThis.__activeRequests`. -/
def Acc.init : Acc := ⟨1, 0, [], [], 0⟩

/-- Seal an accumulator with a result. -/
def finish (res : RequestResult) (a : Acc) : ExecTrace :=
  ⟨res, a.counterDelta, a.fetchCalls, a.backoffs, a.timers, a.starts⟩

/-- The `while (attempt < maxAttempts)` loop of `request`.  `fuel` dominates
the number of remaining iterations (the call site passes `maxAttempts`,
which suffices because `attempt` grows by one per iteration); both the
fuel-exhaustion case and the loop-condition-false case model the code after
the loop: `--globalThis.__activeRequests; throw new ResponseError()`. -/
def requestLoop (s : RequestSettings) (env : Nat → AttemptEnv) (ma : Nat) :
    Nat → Nat → Acc → ExecTrace
  | 0, _, a =>
      finish (RequestResult.responseError "Something went wrong.")
        ⟨a.counterDelta - 1, a.fetchCalls, a.backoffs, a.timers, a.starts⟩
  | Nat.succ fuel, attempt, a =>
      if attempt < ma then
        if s.hasAbortSignal && (env attempt).preAborted then
          finish RequestResult.abortError
            ⟨a.counterDelta - 1, a.fetchCalls, a.backoffs, a.timers, a.starts + 1⟩
        else
          match (env attempt).outcome with
          | FetchOutcome.resolved r =>
              if 500 ≤ r.status then
                finish (RequestResult.responseError "Something went wrong.")
                  ⟨a.counterDelta, a.fetchCalls + 1, a.backoffs,
                    a.timers ++ [baseTimeoutOf s], a.starts + 1⟩
              else if r.status = 429 then
                finish (RequestResult.responseError
                  "Something went wrong, please try again after some time.")
                  ⟨a.counterDelta, a.fetchCalls + 1, a.backoffs,
                    a.timers ++ [baseTimeoutOf s], a.starts + 1⟩
              else
                finish (RequestResult.success r)
                  ⟨a.counterDelta, a.fetchCalls + 1, a.backoffs,
                    a.timers ++ [baseTimeoutOf s], a.starts + 1⟩
          | FetchOutcome.abortExc =>
              if s.hasAbortSignal && (env attempt).postAborted then
                finish RequestResult.abortError
                  ⟨a.counterDelta, a.fetchCalls + 1, a.backoffs,
                    a.timers ++ [baseTimeoutOf s], a.starts + 1⟩
              else if attempt < ma - 1 ∧ s.method = Method.GET then
                requestLoop s env ma fuel (attempt + 1)
                  ⟨a.counterDelta, a.fetchCalls + 1,
                    a.backoffs ++ [500 * 2 ^ attempt],
                    a.timers ++ [baseTimeoutOf s], a.starts + 1⟩
              else
                finish RequestResult.timeoutError
                  ⟨a.counterDelta, a.fetchCalls + 1, a.backoffs,
                    a.timers ++ [baseTimeoutOf s], a.starts + 1⟩
          | FetchOutcome.typeError =>
              if attempt < ma - 1 ∧ s.method = Method.GET then
                requestLoop s env ma fuel (attempt + 1)
                  ⟨a.counterDelta, a.fetchCalls + 1,
                    a.backoffs ++ [500 * 2 ^ attempt],
                    a.timers ++ [baseTimeoutOf s], a.starts + 1⟩
              else
                finish (RequestResult.responseError "Something went wrong.")
                  ⟨a.counterDelta, a.fetchCalls + 1, a.backoffs,
                    a.timers ++ [baseTimeoutOf s], a.starts + 1⟩
          | FetchOutcome.otherError _ =>
              finish (RequestResult.responseError "Something went wrong.")
                ⟨a.counterDelta, a.fetchCalls + 1, a.backoffs,
                  a.timers ++ [baseTimeoutOf s], a.starts + 1⟩
      else
        finish (RequestResult.responseError "Something went wrong.")
          ⟨a.counterDelta - 1, a.fetchCalls, a.backoffs, a.timers, a.starts⟩

/-- One call to `request`: increment the counter (the accumulator starts at
net `+1`) and run the attempt loop from attempt 0. -/
def request (s : RequestSettings) (env : Nat → AttemptEnv) : ExecTrace :=
  requestLoop s env (maxAttemptsOf s) (maxAttemptsOf s) 0 Acc.init

/-- A JavaScript value reaching `assertResponseError`: one of the error
classes of the module, a `DOMException`, a `TypeError`, or anything else. -/
inductive JsValue where
  | responseError (msg : String)
  | abortError
  | timeoutError
  | domAbortException
  | jsTypeError
  | other (tag : Nat)
deriving DecidableEq, Repr

/-- `e instanceof ResponseError`.  `AbortError` and `TimeoutError` extend
`Error`, not `ResponseError`, so they do not match. -/
def isResponseErrorInstance : JsValue → Bool
  | JsValue.responseError _ => true
  | _ => false

/-- `assertResponseError`: return normally when the argument is an instance
of `ResponseError`, otherwise re-throw the argument itself. -/
def assertResponseError (e : JsValue) : Except JsValue Unit :=
  if isResponseErrorInstance e then Except.ok () else Except.error e

/-! ## Single-step unfolding lemmas for the attempt loop -/

/-- Pre-fetch check: a signal already in the aborted state decrements the
counter and fails with `AbortError`; no transport call, no timer. -/
theorem requestLoop_step_preAborted (s : RequestSettings) (env : Nat → AttemptEnv)
    (ma fuel attempt : Nat) (a : Acc) (hlt : attempt < ma)
    (hsig : (s.hasAbortSignal && (env attempt).preAborted) = true) :
    requestLoop s env ma (fuel + 1) attempt a
      = finish RequestResult.abortError
          ⟨a.counterDelta - 1, a.fetchCalls, a.backoffs, a.timers, a.starts + 1⟩ := by
  simp [requestLoop, hlt, hsig]

/-- A resolved response with status ≥ 500 is a `ResponseError` with the
generic message, with no retry. -/
theorem requestLoop_step_resolved_500 (s : RequestSettings) (env : Nat → AttemptEnv)
    (ma fuel attempt : Nat) (a : Acc) (r : ResponseV) (hlt : attempt < ma)
    (hpre : (s.hasAbortSignal && (env attempt).preAborted) = false)
    (hout : (env attempt).outcome = FetchOutcome.resolved r)
    (h5 : 500 ≤ r.status) :
    requestLoop s env ma (fuel + 1) attempt a
      = finish (RequestResult.responseError "Something went wrong.")
          ⟨a.counterDelta, a.fetchCalls + 1, a.backoffs,
            a.timers ++ [baseTimeoutOf s], a.starts + 1⟩ := by
  simp [requestLoop, hlt, hpre, hout, h5]

/-- A resolved response with status 429 is a `ResponseError` with the
rate-limit message, with no retry. -/
theorem requestLoop_step_resolved_429 (s : RequestSettings) (env : Nat → AttemptEnv)
    (ma fuel attempt : Nat) (a : Acc) (r : ResponseV) (hlt : attempt < ma)
    (hpre : (s.hasAbortSignal && (env attempt).preAborted) = false)
    (hout : (env attempt).outcome = FetchOutcome.resolved r)
    (h5 : r.status < 500) (h4 : r.status = 429) :
    requestLoop s env ma (fuel + 1) attempt a
      = finish (RequestResult.responseError
            "Something went wrong, please try again after some time.")
          ⟨a.counterDelta, a.fetchCalls + 1, a.backoffs,
            a.timers ++ [baseTimeoutOf s], a.starts + 1⟩ := by
  have h5' : ¬ 500 ≤ r.status := by omega
  simp [requestLoop, hlt, hpre, hout, h5', h4]

/-- A resolved response with any other status is a terminal success returning
the response object as-is. -/
theorem requestLoop_step_resolved_ok (s : RequestSettings) (env : Nat → AttemptEnv)
    (ma fuel attempt : Nat) (a : Acc) (r : ResponseV) (hlt : attempt < ma)
    (hpre : (s.hasAbortSignal && (env attempt).preAborted) = false)
    (hout : (env attempt).outcome = FetchOutcome.resolved r)
    (h5 : r.status < 500) (h4 : r.status ≠ 429) :
    requestLoop s env ma (fuel + 1) attempt a
      = finish (RequestResult.success r)
          ⟨a.counterDelta, a.fetchCalls + 1, a.backoffs,
            a.timers ++ [baseTimeoutOf s], a.starts + 1⟩ := by
  have h5' : ¬ 500 ≤ r.status := by omega
  simp [requestLoop, hlt, hpre, hout, h5', h4]

/-- An abort exception attributed (post-hoc) to the external signal fails
with `AbortError`, whatever the method and attempt count. -/
theorem requestLoop_step_abort_user (s : RequestSettings) (env : Nat → AttemptEnv)
    (ma fuel attempt : Nat) (a : Acc) (hlt : attempt < ma)
    (hpre : (s.hasAbortSignal && (env attempt).preAborted) = false)
    (hout : (env attempt).outcome = FetchOutcome.abortExc)
    (hpost : (s.hasAbortSignal && (env attempt).postAborted) = true) :
    requestLoop s env ma (fuel + 1) attempt a
      = finish RequestResult.abortError
          ⟨a.counterDelta, a.fetchCalls + 1, a.backoffs,
            a.timers ++ [baseTimeoutOf s], a.starts + 1⟩ := by
  simp [requestLoop, hlt, hpre, hout, hpost]

/-- An abort exception attributed to the timeout retries with exponential
backoff when the method is GET and attempts remain. -/
theorem requestLoop_step_abort_timeout_retry (s : RequestSettings)
    (env : Nat → AttemptEnv) (ma fuel attempt : Nat) (a : Acc) (hlt : attempt < ma)
    (hpre : (s.hasAbortSignal && (env attempt).preAborted) = false)
    (hout : (env attempt).outcome = FetchOutcome.abortExc)
    (hpost : (s.hasAbortSignal && (env attempt).postAborted) = false)
    (hretry : attempt < ma - 1 ∧ s.method = Method.GET) :
    requestLoop s env ma (fuel + 1) attempt a
      = requestLoop s env ma fuel (attempt + 1)
          ⟨a.counterDelta, a.fetchCalls + 1, a.backoffs ++ [500 * 2 ^ attempt],
            a.timers ++ [baseTimeoutOf s], a.starts + 1⟩ := by
  simp [requestLoop, hlt, hpre, hout, hpost, hretry]

/-- An abort exception attributed to the timeout, with no retry available,
fails with `TimeoutError`. -/
theorem requestLoop_step_abort_timeout_final (s : RequestSettings)
    (env : Nat → AttemptEnv) (ma fuel attempt : Nat) (a : Acc) (hlt : attempt < ma)
    (hpre : (s.hasAbortSignal && (env attempt).preAborted) = false)
    (hout : (env attempt).outcome = FetchOutcome.abortExc)
    (hpost : (s.hasAbortSignal && (env attempt).postAborted) = false)
    (hfin : ¬ (attempt < ma - 1 ∧ s.method = Method.GET)) :
    requestLoop s env ma (fuel + 1) attempt a
      = finish RequestResult.timeoutError
          ⟨a.counterDelta, a.fetchCalls + 1, a.backoffs,
            a.timers ++ [baseTimeoutOf s], a.starts + 1⟩ := by
  simp [requestLoop, hlt, hpre, hout, hpost, hfin]

/-- A network-level failure (`TypeError`) retries with exponential backoff
when the method is GET and attempts remain. -/
theorem requestLoop_step_typeError_retry (s : RequestSettings)
    (env : Nat → AttemptEnv) (ma fuel attempt : Nat) (a : Acc) (hlt : attempt < ma)
    (hpre : (s.hasAbortSignal && (env attempt).preAborted) = false)
    (hout : (env attempt).outcome = FetchOutcome.typeError)
    (hretry : attempt < ma - 1 ∧ s.method = Method.GET) :
    requestLoop s env ma (fuel + 1) attempt a
      = requestLoop s env ma fuel (attempt + 1)
          ⟨a.counterDelta, a.fetchCalls + 1, a.backoffs ++ [500 * 2 ^ attempt],
            a.timers ++ [baseTimeoutOf s], a.starts + 1⟩ := by
  simp [requestLoop, hlt, hpre, hout, hretry]

/-- A network-level failure with no retry available fails with the generic
`ResponseError`. -/
theorem requestLoop_step_typeError_final (s : RequestSettings)
    (env : Nat → AttemptEnv) (ma fuel attempt : Nat) (a : Acc) (hlt : attempt < ma)
    (hpre : (s.hasAbortSignal && (env attempt).preAborted) = false)
    (hout : (env attempt).outcome = FetchOutcome.typeError)
    (hfin : ¬ (attempt < ma - 1 ∧ s.method = Method.GET)) :
    requestLoop s env ma (fuel + 1) attempt a
      = finish (RequestResult.responseError "Something went wrong.")
          ⟨a.counterDelta, a.fetchCalls + 1, a.backoffs,
            a.timers ++ [baseTimeoutOf s], a.starts + 1⟩ := by
  simp [requestLoop, hlt, hpre, hout, hfin]

/-- Any other exception maps to the generic `ResponseError`, with no
retry. -/
theorem requestLoop_step_otherError (s : RequestSettings)
    (env : Nat → AttemptEnv) (ma fuel attempt : Nat) (a : Acc) (tag : Nat)
    (hlt : attempt < ma)
    (hpre : (s.hasAbortSignal && (env attempt).preAborted) = false)
    (hout : (env attempt).outcome = FetchOutcome.otherError tag) :
    requestLoop s env ma (fuel + 1) attempt a
      = finish (RequestResult.responseError "Something went wrong.")
          ⟨a.counterDelta, a.fetchCalls + 1, a.backoffs,
            a.timers ++ [baseTimeoutOf s], a.starts + 1⟩ := by
  simp [requestLoop, hlt, hpre, hout]

/-! ## Loop invariants -/

/-- Each loop iteration issues at most one transport call, so the fuel bounds
the number of `fetch` calls. -/
theorem requestLoop_fetchCalls_le (s : RequestSettings) (env : Nat → AttemptEnv)
    (ma : Nat) : ∀ (fuel attempt : Nat) (a : Acc),
    (requestLoop s env ma fuel attempt a).fetchCalls ≤ a.fetchCalls + fuel := by
  intro fuel
  induction fuel with
  | zero => intro attempt a; simp [requestLoop, finish]
  | succ n ih =>
    intro attempt a
    simp only [requestLoop]
    split
    · split
      · simp [finish]
      · split
        all_goals try split_ifs
        all_goals
          first
            | exact (ih _ _).trans (by simp; omega)
            | (simp [finish] <;> omega)
    · simp [finish]

/-- Every attempt that reaches the transport arms a fresh timer with the full
effective timeout: the timer trace is `fetchCalls` copies of `baseTimeout`. -/
theorem requestLoop_timers (s : RequestSettings) (env : Nat → AttemptEnv)
    (ma : Nat) : ∀ (fuel attempt : Nat) (a : Acc),
    a.timers = List.replicate a.fetchCalls (baseTimeoutOf s) →
    (requestLoop s env ma fuel attempt a).timers
      = List.replicate (requestLoop s env ma fuel attempt a).fetchCalls
          (baseTimeoutOf s) := by
  intro fuel
  induction fuel with
  | zero => intro attempt a h; simp [requestLoop, finish, h]
  | succ n ih =>
    intro attempt a h
    simp only [requestLoop]
    split
    · split
      · simp [finish, h]
      · split
        all_goals try split_ifs
        all_goals
          first
            | exact ih _ _ (by simp [h, List.replicate_succ'])
            | (simp [finish, h, List.replicate_succ'])
    · simp [finish, h]

/-- The i-th backoff slept is `500 * 2 ^ i`: the backoff trace is always an
initial segment of the exponential schedule. -/
theorem requestLoop_backoffs (s : RequestSettings) (env : Nat → AttemptEnv)
    (ma : Nat) : ∀ (fuel attempt : Nat) (a : Acc),
    a.backoffs = (List.range attempt).map (fun i => 500 * 2 ^ i) →
    (requestLoop s env ma fuel attempt a).backoffs
      = (List.range (requestLoop s env ma fuel attempt a).backoffs.length).map
          (fun i => 500 * 2 ^ i) := by
  intro fuel
  induction fuel with
  | zero => intro attempt a h; simp [requestLoop, finish, h]
  | succ n ih =>
    intro attempt a h
    simp only [requestLoop]
    split
    · split
      · simp [finish, h]
      · split
        all_goals try split_ifs
        all_goals
          first
            | exact ih _ _ (by simp [h, List.range_succ])
            | (simp [finish, h])
    · simp [finish, h]

/-- Each backoff is followed by entering a further attempt: the number of
loop iterations entered exceeds the number of backoffs by exactly one, so a
backoff is never the last act of a call. -/
theorem requestLoop_starts (s : RequestSettings) (env : Nat → AttemptEnv)
    (ma : Nat) : ∀ (fuel attempt : Nat) (a : Acc),
    attempt < ma → ma - attempt ≤ fuel →
    (requestLoop s env ma fuel attempt a).starts + a.backoffs.length
      = (requestLoop s env ma fuel attempt a).backoffs.length + a.starts + 1 := by
  intro fuel
  induction fuel with
  | zero => intro attempt a hlt hfuel; omega
  | succ n ih =>
    intro attempt a hlt hfuel
    simp only [requestLoop]
    rw [if_pos hlt]
    split
    · simp [finish] <;> omega
    · split
      · split_ifs <;> simp [finish] <;> omega
      · split_ifs with h1 h2
        · simp [finish] <;> omega
        · obtain ⟨h3, h4⟩ := h2
          have ih2 := ih (attempt + 1)
            ⟨a.counterDelta, a.fetchCalls + 1, a.backoffs ++ [500 * 2 ^ attempt],
              a.timers ++ [baseTimeoutOf s], a.starts + 1⟩ (by omega) (by omega)
          simp at ih2 ⊢
          omega
        · simp [finish] <;> omega
      · split_ifs with h1
        · obtain ⟨h3, h4⟩ := h1
          have ih2 := ih (attempt + 1)
            ⟨a.counterDelta, a.fetchCalls + 1, a.backoffs ++ [500 * 2 ^ attempt],
              a.timers ++ [baseTimeoutOf s], a.starts + 1⟩ (by omega) (by omega)
          simp at ih2 ⊢
          omega
        · simp [finish] <;> omega
      · simp [finish] <;> omega

/-- `maxAttempts` is at least one for every method. -/
theorem maxAttemptsOf_pos (s : RequestSettings) : 1 ≤ maxAttemptsOf s := by
  unfold maxAttemptsOf; split <;> omega

/-- `JSON.stringify` of a record is enclosed in braces, hence never the
empty string. -/
theorem jsonStringifyRecord_ne_empty (fields : List (String × String)) :
    jsonStringifyRecord fields ≠ "" := by
  intro hc
  have h2 := congrArg String.length hc
  rw [jsonStringifyRecord] at h2
  rw [String.length_append, String.length_append] at h2
  have hl1 : "\x7b".length = 1 := rfl
  have hl2 : "\x7d".length = 1 := rfl
  have hl0 : ("" : String).length = 0 := rfl
  omega

/-- A JSON text body produced by the preparation step is never the empty
string. -/
theorem computeBody_json_ne_empty (s : RequestSettings) (str : String)
    (h : computeBody s = Body.json str) : str ≠ "" := by
  unfold computeBody at h
  split at h
  · simp at h
  · split at h
    · simp at h
    · simp at h
    · simp only [Body.json.injEq] at h
      exact h ▸ jsonStringifyRecord_ne_empty _

/-! ## Request-level invariants -/

/-- The number of transport calls of one call never exceeds `maxAttempts`. -/
theorem request_fetchCalls_le (s : RequestSettings) (env : Nat → AttemptEnv) :
    (request s env).fetchCalls ≤ maxAttemptsOf s := by
  have h := requestLoop_fetchCalls_le s env (maxAttemptsOf s) (maxAttemptsOf s) 0 Acc.init
  simpa [request, Acc.init] using h

/-- Every attempt arms its timer with the full effective timeout. -/
theorem request_timers_eq (s : RequestSettings) (env : Nat → AttemptEnv) :
    (request s env).timers
      = List.replicate (request s env).fetchCalls (baseTimeoutOf s) := by
  have h := requestLoop_timers s env (maxAttemptsOf s) (maxAttemptsOf s) 0 Acc.init
    (by simp [Acc.init])
  simpa [request] using h

/-- The backoff delays of one call follow the exponential schedule
`500 * 2 ^ i` from index 0. -/
theorem request_backoffs_eq (s : RequestSettings) (env : Nat → AttemptEnv) :
    (request s env).backoffs
      = (List.range (request s env).backoffs.length).map (fun i => 500 * 2 ^ i) := by
  have h := requestLoop_backoffs s env (maxAttemptsOf s) (maxAttemptsOf s) 0 Acc.init
    (by simp [Acc.init])
  simpa [request] using h

/-- One call enters exactly one more attempt than it sleeps backoffs: a
backoff is never applied before a final failing attempt. -/
theorem request_starts_eq (s : RequestSettings) (env : Nat → AttemptEnv) :
    (request s env).starts = (request s env).backoffs.length + 1 := by
  have h1 := maxAttemptsOf_pos s
  have h := requestLoop_starts s env (maxAttemptsOf s) (maxAttemptsOf s) 0 Acc.init
    (by omega) (by omega)
  simpa [request, Acc.init] using h

/-! ## Concrete fixtures -/

/-- A plain GET descriptor with no abort signal and default timeout. -/
def getSettings : RequestSettings :=
  ⟨Accept.json, "/items", false, none, Method.GET, DataV.undef⟩

/-- A plain POST descriptor with an absent payload. -/
def postSettings : RequestSettings :=
  ⟨Accept.json, "/items", false, none, Method.POST, DataV.undef⟩

/-- A GET descriptor carrying an external abort signal. -/
def abortSignalSettings : RequestSettings :=
  ⟨Accept.json, "/items", true, none, Method.GET, DataV.undef⟩

/-- Transport always resolves with status 200. -/
def okEnv : Nat → AttemptEnv := fun _ => ⟨false, FetchOutcome.resolved ⟨200, 7⟩, false⟩

/-- Transport always resolves with status 503. -/
def err503Env : Nat → AttemptEnv := fun _ => ⟨false, FetchOutcome.resolved ⟨503, 3⟩, false⟩

/-- Transport always fails with a network-level `TypeError`. -/
def netFailEnv : Nat → AttemptEnv := fun _ => ⟨false, FetchOutcome.typeError, false⟩

/-- The transport call is aborted, and the external signal is found aborted
at the post-settlement check. -/
def userAbortEnv : Nat → AttemptEnv := fun _ => ⟨false, FetchOutcome.abortExc, true⟩

/-- The external signal is already aborted at the pre-fetch check. -/
def preAbortedEnv : Nat → AttemptEnv := fun _ => ⟨true, FetchOutcome.typeError, true⟩

/-- Transport fails with a network failure on attempts 0 and 1, then resolves
with `r`. -/
def twoFailEnv (r : ResponseV) : Nat → AttemptEnv := fun i =>
  if i < 2 then ⟨false, FetchOutcome.typeError, false⟩
  else ⟨false, FetchOutcome.resolved r, false⟩

/-! ## Claims -/

/-- C1: the spec claims the in-flight counter returns to its pre-call value
on every settled call.  The code decrements only on the pre-fetch abort path
and on the (unreachable) loop-exhaustion path; on a successful response the
counter's net change is `+1`, not `0`. -/
theorem c1_counter_leak_on_success :
    (request getSettings okEnv).result = RequestResult.success ⟨200, 7⟩ ∧
    (request getSettings okEnv).counterDelta = 1 := by decide

/-- C2: when an in-flight attempt's transport call fails with a
signal-triggered abort, the cause is classified by re-inspecting the external
signal post-hoc: if it is aborted the call fails with `AbortError` with no
retry, regardless of method or attempt count; otherwise the cancellation is
attributed to the timeout and the call retries (GET with attempts remaining)
or fails with `TimeoutError`. -/
theorem c2_inflight_abort_classification (s : RequestSettings)
    (env : Nat → AttemptEnv) (ma fuel attempt : Nat) (a : Acc)
    (hlt : attempt < ma)
    (hpre : (s.hasAbortSignal && (env attempt).preAborted) = false)
    (hout : (env attempt).outcome = FetchOutcome.abortExc) :
    ((s.hasAbortSignal && (env attempt).postAborted) = true →
      (requestLoop s env ma (fuel + 1) attempt a).result
        = RequestResult.abortError) ∧
    ((s.hasAbortSignal && (env attempt).postAborted) = false →
      (attempt < ma - 1 ∧ s.method = Method.GET →
        requestLoop s env ma (fuel + 1) attempt a
          = requestLoop s env ma fuel (attempt + 1)
              ⟨a.counterDelta, a.fetchCalls + 1,
                a.backoffs ++ [500 * 2 ^ attempt],
                a.timers ++ [baseTimeoutOf s], a.starts + 1⟩) ∧
      (¬ (attempt < ma - 1 ∧ s.method = Method.GET) →
        (requestLoop s env ma (fuel + 1) attempt a).result
          = RequestResult.timeoutError)) := by
  refine ⟨fun hpost => ?_, fun hpost => ⟨fun hretry => ?_, fun hfin => ?_⟩⟩
  · rw [requestLoop_step_abort_user s env ma fuel attempt a hlt hpre hout hpost]
    rfl
  · exact requestLoop_step_abort_timeout_retry s env ma fuel attempt a hlt hpre
      hout hpost hretry
  · rw [requestLoop_step_abort_timeout_final s env ma fuel attempt a hlt hpre
      hout hpost hfin]
    rfl

/-- Witness for C2: with the signal found aborted post-hoc, the call fails
with `AbortError`. -/
theorem c2_witness :
    (requestLoop abortSignalSettings userAbortEnv 3 3 0 Acc.init).result
      = RequestResult.abortError :=
  (c2_inflight_abort_classification abortSignalSettings userAbortEnv 3 2 0
    Acc.init (by decide) rfl rfl).1 rfl

/-- C3: a settled response with status ≥ 500 yields
`ResponseError "Something went wrong."` with no retry even for GET; status
429 yields the rate-limit message with no retry; any other status is a
terminal success returning the response as-is. -/
theorem c3_status_classification (s : RequestSettings) (env : Nat → AttemptEnv)
    (ma fuel attempt : Nat) (a : Acc) (r : ResponseV) (hlt : attempt < ma)
    (hpre : (s.hasAbortSignal && (env attempt).preAborted) = false)
    (hout : (env attempt).outcome = FetchOutcome.resolved r) :
    (500 ≤ r.status →
      (requestLoop s env ma (fuel + 1) attempt a).result
          = RequestResult.responseError "Something went wrong." ∧
      (requestLoop s env ma (fuel + 1) attempt a).fetchCalls
          = a.fetchCalls + 1) ∧
    (r.status = 429 →
      (requestLoop s env ma (fuel + 1) attempt a).result
          = RequestResult.responseError
              "Something went wrong, please try again after some time." ∧
      (requestLoop s env ma (fuel + 1) attempt a).fetchCalls
          = a.fetchCalls + 1) ∧
    (r.status < 500 → r.status ≠ 429 →
      (requestLoop s env ma (fuel + 1) attempt a).result
          = RequestResult.success r ∧
      (requestLoop s env ma (fuel + 1) attempt a).fetchCalls
          = a.fetchCalls + 1) := by
  refine ⟨fun h5 => ?_, fun h4 => ?_, fun h5 h4 => ?_⟩
  · rw [requestLoop_step_resolved_500 s env ma fuel attempt a r hlt hpre hout h5]
    exact ⟨rfl, rfl⟩
  · rw [requestLoop_step_resolved_429 s env ma fuel attempt a r hlt hpre hout
      (by omega) h4]
    exact ⟨rfl, rfl⟩
  · rw [requestLoop_step_resolved_ok s env ma fuel attempt a r hlt hpre hout h5 h4]
    exact ⟨rfl, rfl⟩

/-- Witness for C3: a 503 response surfaces the generic `ResponseError` after
a single transport call, even for GET. -/
theorem c3_witness :
    (requestLoop getSettings err503Env 3 3 0 Acc.init).result
        = RequestResult.responseError "Something went wrong." ∧
    (requestLoop getSettings err503Env 3 3 0 Acc.init).fetchCalls = 1 :=
  (c3_status_classification getSettings err503Env 3 2 0 Acc.init ⟨503, 3⟩
    (by decide) rfl rfl).1 (by decide)

/-- C4: GET gets at most 3 transport attempts, every other method exactly 1;
for a POST descriptor any transport failure (network failure or timeout)
fails immediately with a single attempt and no retry. -/
theorem c4_retry_budget (s : RequestSettings) (env : Nat → AttemptEnv) :
    (s.method = Method.GET → maxAttemptsOf s = 3) ∧
    (s.method ≠ Method.GET → maxAttemptsOf s = 1) ∧
    (request s env).fetchCalls ≤ maxAttemptsOf s ∧
    (s.method = Method.POST →
      (s.hasAbortSignal && (env 0).preAborted) = false →
      ((env 0).outcome = FetchOutcome.typeError →
        (request s env).result
            = RequestResult.responseError "Something went wrong." ∧
        (request s env).fetchCalls = 1) ∧
      ((env 0).outcome = FetchOutcome.abortExc →
        (s.hasAbortSignal && (env 0).postAborted) = false →
        (request s env).result = RequestResult.timeoutError ∧
        (request s env).fetchCalls = 1)) := by
  refine ⟨fun h => by simp [maxAttemptsOf, h], fun h => by simp [maxAttemptsOf, h],
    request_fetchCalls_le s env, fun hm hpre => ?_⟩
  have hma : maxAttemptsOf s = 1 := by simp [maxAttemptsOf, hm]
  have e0 : request s env = requestLoop s env 1 1 0 Acc.init := by
    unfold request; rw [hma]
  have hfin : ¬ ((0 : Nat) < 1 - 1 ∧ s.method = Method.GET) :=
    fun hc => absurd hc.1 (by decide)
  refine ⟨fun hout => ?_, fun hout hpost => ?_⟩
  · rw [e0, requestLoop_step_typeError_final s env 1 0 0 Acc.init (by decide)
      hpre hout hfin]
    exact ⟨rfl, rfl⟩
  · rw [e0, requestLoop_step_abort_timeout_final s env 1 0 0 Acc.init (by decide)
      hpre hout hpost hfin]
    exact ⟨rfl, rfl⟩

/-- Witness for C4: a POST whose transport fails with a network error fails
with the generic `ResponseError` after exactly one transport call. -/
theorem c4_witness :
    (request postSettings netFailEnv).result
        = RequestResult.responseError "Something went wrong." ∧
    (request postSettings netFailEnv).fetchCalls = 1 :=
  ((c4_retry_budget postSettings netFailEnv).2.2.2 rfl rfl).1 rfl

/-- C5: the backoff before attempt `i + 1` is `500 * 2 ^ i` (index from 0),
a backoff is never applied before a final failing attempt (each backoff is
followed by entering another attempt), and for every GET descriptor whose
transport fails with a network failure exactly twice then succeeds, the call
returns the success value with 3 transport attempts, backoffs of exactly 500
then 1000 ms, and a full fresh timer per attempt. -/
theorem c5_backoff_schedule (s : RequestSettings) (env : Nat → AttemptEnv)
    (r : ResponseV) (hm : s.method = Method.GET)
    (hpre0 : (s.hasAbortSignal && (env 0).preAborted) = false)
    (hpre1 : (s.hasAbortSignal && (env 1).preAborted) = false)
    (hpre2 : (s.hasAbortSignal && (env 2).preAborted) = false)
    (hout0 : (env 0).outcome = FetchOutcome.typeError)
    (hout1 : (env 1).outcome = FetchOutcome.typeError)
    (hout2 : (env 2).outcome = FetchOutcome.resolved r)
    (h5 : r.status < 500) (h4 : r.status ≠ 429) :
    (∀ (s2 : RequestSettings) (env2 : Nat → AttemptEnv),
      (request s2 env2).backoffs
        = (List.range (request s2 env2).backoffs.length).map
            (fun i => 500 * 2 ^ i)) ∧
    (∀ (s2 : RequestSettings) (env2 : Nat → AttemptEnv),
      (request s2 env2).starts = (request s2 env2).backoffs.length + 1) ∧
    request s env
      = ⟨RequestResult.success r, 1, 3, [500, 1000],
          [baseTimeoutOf s, baseTimeoutOf s, baseTimeoutOf s], 3⟩ := by
  refine ⟨request_backoffs_eq, request_starts_eq, ?_⟩
  have hma : maxAttemptsOf s = 3 := by simp [maxAttemptsOf, hm]
  have e0 : request s env = requestLoop s env 3 3 0 Acc.init := by
    unfold request; rw [hma]
  have e1 : requestLoop s env 3 3 0 Acc.init
      = requestLoop s env 3 2 1 ⟨1, 1, [500], [baseTimeoutOf s], 1⟩ :=
    requestLoop_step_typeError_retry s env 3 2 0 Acc.init
      (by decide) hpre0 hout0 ⟨by decide, hm⟩
  have e2 : requestLoop s env 3 2 1 ⟨1, 1, [500], [baseTimeoutOf s], 1⟩
      = requestLoop s env 3 1 2
          ⟨1, 2, [500, 1000], [baseTimeoutOf s, baseTimeoutOf s], 2⟩ :=
    requestLoop_step_typeError_retry s env 3 1 1
      ⟨1, 1, [500], [baseTimeoutOf s], 1⟩ (by decide) hpre1 hout1
      ⟨by decide, hm⟩
  have e3 : requestLoop s env 3 1 2
        ⟨1, 2, [500, 1000], [baseTimeoutOf s, baseTimeoutOf s], 2⟩
      = ⟨RequestResult.success r, 1, 3, [500, 1000],
          [baseTimeoutOf s, baseTimeoutOf s, baseTimeoutOf s], 3⟩ :=
    requestLoop_step_resolved_ok s env 3 0 2
      ⟨1, 2, [500, 1000], [baseTimeoutOf s, baseTimeoutOf s], 2⟩ r (by decide)
      hpre2 hout2 h5 h4
  exact e0.trans (e1.trans (e2.trans e3))

/-- Witness for C5 at a concrete descriptor and a concrete 200 response. -/
theorem c5_witness :
    request getSettings (twoFailEnv ⟨200, 7⟩)
      = ⟨RequestResult.success ⟨200, 7⟩, 1, 3, [500, 1000],
          [60000, 60000, 60000], 3⟩ :=
  (c5_backoff_schedule getSettings (twoFailEnv ⟨200, 7⟩) ⟨200, 7⟩ rfl
    rfl rfl rfl rfl rfl rfl (by decide) (by decide)).2.2

/-- C6: an external signal already aborted at the pre-fetch check makes the
call decrement the counter and fail with `AbortError` immediately: no
transport call, no timer, no backoff, and a net counter change of zero. -/
theorem c6_presignalled_abort (s : RequestSettings) (env : Nat → AttemptEnv)
    (hsig : s.hasAbortSignal = true) (hpre : (env 0).preAborted = true) :
    request s env = ⟨RequestResult.abortError, 0, 0, [], [], 1⟩ := by
  have hb : (s.hasAbortSignal && (env 0).preAborted) = true := by
    rw [hsig, hpre]; rfl
  by_cases hm : s.method = Method.GET
  · have hma : maxAttemptsOf s = 3 := by simp [maxAttemptsOf, hm]
    have e0 : request s env = requestLoop s env 3 3 0 Acc.init := by
      unfold request; rw [hma]
    rw [e0]
    exact requestLoop_step_preAborted s env 3 2 0 Acc.init (by decide) hb
  · have hma : maxAttemptsOf s = 1 := by simp [maxAttemptsOf, hm]
    have e0 : request s env = requestLoop s env 1 1 0 Acc.init := by
      unfold request; rw [hma]
    rw [e0]
    exact requestLoop_step_preAborted s env 1 0 0 Acc.init (by decide) hb

/-- Witness for C6. -/
theorem c6_witness :
    request abortSignalSettings preAbortedEnv
      = ⟨RequestResult.abortError, 0, 0, [], [], 1⟩ :=
  c6_presignalled_abort abortSignalSettings preAbortedEnv rfl rfl

/-- C7: request preparation is deterministic and per-call: the body is null
for GET, a `FormData` payload passes through, any other payload is JSON
serialized; the `Accept` header comes from the fixed mapping; `Content-Type:
application/json` is present exactly when a JSON text body is, and never for
multipart bodies. -/
theorem c7_preparation (s : RequestSettings) :
    (s.method = Method.GET → computeBody s = Body.null) ∧
    (∀ tag, s.method ≠ Method.GET → s.data = DataV.form tag →
      computeBody s = Body.form tag) ∧
    (∀ fields, s.method ≠ Method.GET → s.data = DataV.record fields →
      computeBody s = Body.json (jsonStringifyRecord fields)) ∧
    (acceptType Accept.json = "application/json, text/html" ∧
      acceptType Accept.html = "text/html" ∧
      acceptType Accept.csv = "text/csv") ∧
    ("Accept", acceptType s.accept) ∈ headersOf s ∧
    ((("Content-Type", "application/json") ∈ headersOf s) ↔
      ∃ str, computeBody s = Body.json str) ∧
    (∀ tag, computeBody s = Body.form tag →
      ("Content-Type", "application/json") ∉ headersOf s) := by
  refine ⟨fun h => by simp [computeBody, h],
    fun tag hm hd => by simp [computeBody, hm, hd],
    fun fields hm hd => by simp [computeBody, hm, hd],
    ⟨rfl, rfl, rfl⟩, ?_, ?_, ?_⟩
  · unfold headersOf; split <;> simp
  · constructor
    · intro hmem
      unfold headersOf at hmem
      split at hmem
      · rename_i hcond
        cases hb : computeBody s with
        | null => rw [hb] at hcond; simp [Body.truthy] at hcond
        | undef => rw [hb] at hcond; simp [Body.truthy] at hcond
        | form tag => rw [hb] at hcond; simp [Body.isFormData] at hcond
        | json str => exact ⟨str, rfl⟩
      · simp at hmem
    · rintro ⟨str, hb⟩
      have ht : (computeBody s).truthy = true := by
        rw [hb]
        exact decide_eq_true (computeBody_json_ne_empty s str hb)
      have hf : (computeBody s).isFormData = false := by rw [hb]; rfl
      unfold headersOf
      rw [ht, hf]
      simp
  · intro tag hb
    unfold headersOf
    rw [hb]
    simp [Body.isFormData, Body.truthy]

/-- Witness for C7: the body of a GET request is null. -/
theorem c7_witness : computeBody getSettings = Body.null :=
  (c7_preparation getSettings).1 rfl

/-- C8: the effective timeout is the caller-supplied `timeoutMs` when it is a
number and 60000 ms otherwise, and a fresh timer with the full effective
timeout is armed on every attempt. -/
theorem c8_effective_timeout (s : RequestSettings) (env : Nat → AttemptEnv) :
    (∀ n, s.timeoutMs = some n → baseTimeoutOf s = n) ∧
    (s.timeoutMs = none → baseTimeoutOf s = 60000) ∧
    (request s env).timers
      = List.replicate (request s env).fetchCalls (baseTimeoutOf s) :=
  ⟨fun n h => by simp [baseTimeoutOf, h], fun h => by simp [baseTimeoutOf, h],
    request_timers_eq s env⟩

/-- A GET descriptor with an explicit 1234 ms timeout. -/
def timeoutSettings : RequestSettings :=
  ⟨Accept.json, "/items", false, some 1234, Method.GET, DataV.undef⟩

/-- Witness for C8. -/
theorem c8_witness : baseTimeoutOf timeoutSettings = 1234 :=
  (c8_effective_timeout timeoutSettings okEnv).1 1234 rfl

/-- C9: `assertResponseError e` returns normally iff `e` is an instance of
`ResponseError`, and for any other value it re-throws `e` itself,
unchanged. -/
theorem c9_assertResponseError (e : JsValue) :
    (assertResponseError e = Except.ok () ↔ isResponseErrorInstance e = true) ∧
    (∀ msg, e = JsValue.responseError msg →
      assertResponseError e = Except.ok ()) ∧
    (isResponseErrorInstance e = false →
      assertResponseError e = Except.error e) := by
  cases e <;> simp [assertResponseError, isResponseErrorInstance]

/-- Witness for C9: a `TimeoutError` is re-thrown unchanged. -/
theorem c9_witness :
    assertResponseError JsValue.timeoutError
      = Except.error JsValue.timeoutError :=
  (c9_assertResponseError JsValue.timeoutError).2.2 rfl

/-- C10: for a non-GET descriptor with an absent payload,
`JSON.stringify(undefined)` is `undefined` rather than a string, so the
request carries no body and no `Content-Type` header; `Content-Type:
application/json` is added only when the serialized body is a truthy
non-`FormData` value. -/
theorem c10_undefined_payload (s : RequestSettings)
    (hm : s.method ≠ Method.GET) (hd : s.data = DataV.undef) :
    computeBody s = Body.undef ∧
    (computeBody s).truthy = false ∧
    (∀ str, computeBody s ≠ Body.json str) ∧
    headersOf s = [("Accept", acceptType s.accept)] ∧
    (∀ s2 : RequestSettings,
      ("Content-Type", "application/json") ∈ headersOf s2 →
      (computeBody s2).truthy = true ∧ (computeBody s2).isFormData = false) := by
  have hb : computeBody s = Body.undef := by simp [computeBody, hm, hd]
  refine ⟨hb, by rw [hb]; rfl, fun str hc => by rw [hb] at hc; exact absurd hc (by simp),
    ?_, ?_⟩
  · unfold headersOf
    rw [hb]
    rfl
  · intro s2 hmem
    unfold headersOf at hmem
    split at hmem
    · rename_i hcond
      rw [Bool.and_eq_true] at hcond
      exact ⟨hcond.1, by
        have := hcond.2
        rwa [Bool.not_eq_true'] at this⟩
    · simp at hmem

/-- Witness for C10: a POST with absent payload has an undefined body. -/
theorem c10_witness : computeBody postSettings = Body.undef :=
  (c10_undefined_payload postSettings (by decide) rfl).1

end Request
